import Mathlib

/-!
Verification of the SpaceWH Membership Initiation System API
(backend/mis-api/main.py) against its specification.

The record store (Supabase / PostgREST) is embedded as three in-memory
collections of records; a record is a list of named string fields
(booleans are stored as "true" / "false", numbers in decimal).  Query
filters are the equality predicates the endpoints actually send
(the "eq." prefix of the wire format is stripped); a record matches a
filter iff it carries every named field with the required value, which
is the store contract fixed by the spec (simple equality predicates
over named fields).  Randomness (secrets.token_hex) and the clock
(datetime.utcnow) enter the model as explicit parameters.  Fallible
endpoints return Except HTTPError; an error result carries no updated
store, mirroring that HTTPException aborts the handler before any
write.
-/

/-- A stored record: named fields with string values. -/
def Rec : Type := List (String × String)

instance : DecidableEq Rec := inferInstanceAs (DecidableEq (List (String × String)))

/-- Field lookup, first binding wins (dict semantics: keys are unique). -/
def Rec.getField (r : Rec) (f : String) : Option String :=
  (r.find? (fun p => p.1 == f)).map (fun p => p.2)

/-- A record matches a filter iff it has every named field with the required value. -/
def matchesFilter (r : Rec) (flt : List (String × String)) : Bool :=
  flt.all (fun p => Rec.getField r p.1 == some p.2)

/-- The query operation of the record store: equality filters ANDed together. -/
def applyFilter (coll : List Rec) (flt : List (String × String)) : List Rec :=
  coll.filter (fun r => matchesFilter r flt)

/-- The three collections the endpoints touch. -/
structure Store where
  invitations : List Rec
  onboarding : List Rec
  memberships : List Rec
  deriving DecidableEq

/-- An HTTPException: status code and detail string. -/
structure HTTPError where
  status : Nat
  detail : String
  deriving DecidableEq

/-! Decimal rendering of a natural number, modelling the Python
f-string conversion of an int (most significant digit first, no
leading zeros, "0" for zero). -/

/-- Little-endian decimal digits; fuel-driven so that it reduces definitionally. -/
def decDigitsAux (fuel n : Nat) : List Nat :=
  match fuel with
  | 0 => []
  | f + 1 => if n < 10 then [n] else n % 10 :: decDigitsAux f (n / 10)

/-- Little-endian decimal digits of n (at least one digit). -/
def decDigits (n : Nat) : List Nat := decDigitsAux (n + 1) n

/-- Value of a little-endian digit list: the decoding inverse of decDigits. -/
def decValue : List Nat → Nat
  | [] => 0
  | d :: ds => d + 10 * decValue ds

/-- Decimal string of a natural number, as Python str(int) renders it. -/
def natToDec (n : Nat) : String := String.mk ((decDigits n).reverse.map Nat.digitChar)

/-! Hex rendering of random bytes, modelling secrets.token_hex. -/

/-- Two lowercase hex characters of one byte, high nibble first. -/
def byteHexChars (b : Nat) : List Char := [Nat.digitChar (b / 16), Nat.digitChar (b % 16)]

/-- Lowercase hex encoding of a byte list, as secrets.token_hex yields. -/
def token_hex (bytes : List Nat) : String := String.mk (List.flatten (bytes.map byteHexChars))

/-- ASCII uppercasing, as the Python str.upper call on a hex string. -/
def strUpper (s : String) : String := String.mk (s.data.map Char.toUpper)

/-- Uppercase hexadecimal digit test. -/
def isUpperHexDigit (c : Char) : Bool :=
  (decide ((48 : Nat) ≤ c.toNat) && decide (c.toNat ≤ 57)) ||
  (decide ((65 : Nat) ≤ c.toNat) && decide (c.toNat ≤ 70))

/-! The membership row written by the approval endpoint. -/

/-- The dict literal inserted into rest/v1/memberships by approve_membership. -/
def membership_payload (invitation_code membership_code membership_key issued_to issued_at : String) : Rec :=
  [("invitation_code", invitation_code),
   ("membership_code", membership_code),
   ("membership_key", membership_key),
   ("issued_to", issued_to),
   ("active", "true"),
   ("issued_at", issued_at)]

structure ApproveMembershipResponse where
  success : Bool
  message : String
  membership_key : String
  membership_code : String
  deriving DecidableEq

/-- POST /admin/approve-membership.  randBytes are the three random bytes
drawn by secrets.token_hex(3); ts is int(datetime.utcnow().timestamp()).
The issued_at column stores an ISO rendering of the same clock in the
source; no endpoint reads it back, so the model stores the decimal
rendering of ts there. -/
def approve_membership (store : Store) (invitation_code : String) (user_name : Option String)
    (randBytes : List Nat) (ts : Nat) :
    Except HTTPError (ApproveMembershipResponse × Store) :=
  -- 0. replay prevention: memberships where invitation_code = X and active = true
  if (applyFilter store.memberships
        [("invitation_code", invitation_code), ("active", "true")]).isEmpty then
    -- 1. fetch invitation (the select=* parameter requests all columns; it is not a filter)
    match applyFilter store.invitations [("code", invitation_code)] with
    | [] => .error ⟨404, "Invitation not found."⟩
    | inv :: _ =>
      if inv.getField "status" = some "onboarded" then
        let issued_to := user_name.getD ((inv.getField "invited_name").getD "")
        -- 2. generate membership code and key
        let membership_code := "MEMBER-" ++ strUpper (token_hex randBytes)
        let membership_key := membership_code ++ "-" ++ natToDec ts
        -- 3. insert membership record
        let payload := membership_payload invitation_code membership_code membership_key
          issued_to (natToDec ts)
        .ok ({ success := true, message := "Membership approved.",
               membership_key := membership_key, membership_code := membership_code },
             { store with memberships := store.memberships ++ [payload] })
      else .error ⟨400, "Invitation not onboarded yet."⟩
  else .error ⟨409, "Membership already exists for this invitation code."⟩

structure OnboardingResponse where
  status : String
  code : String
  deriving DecidableEq

/-- POST /submit-onboarding.  The responses mapping is opaque to every
endpoint, so it enters the model as one string blob. -/
def submit_onboarding (store : Store) (code : String) (voice_consent : Bool)
    (responses : String) : Except HTTPError (OnboardingResponse × Store) :=
  match applyFilter store.invitations [("code", code)] with
  | [] => .error ⟨404, "Invitation not found"⟩
  | _ :: _ =>
    let onboarding_data : Rec :=
      [("invitation_code", code),
       ("voice_consent", if voice_consent then "true" else "false"),
       ("responses", responses)]
    .ok ({ status := "submitted", code := code },
         { store with onboarding := store.onboarding ++ [onboarding_data] })

structure ValidateKeyResponse where
  valid : Bool
  key : String
  deriving DecidableEq

/-- POST /validate-key.  The source sends the filter pair
membership_code = key, status = "active" (wire form eq.active). -/
def validate_key (store : Store) (key : String) : Except HTTPError ValidateKeyResponse :=
  match applyFilter store.memberships [("membership_code", key), ("status", "active")] with
  | [] => .error ⟨404, "Invalid membership key"⟩
  | _ :: _ => .ok { valid := true, key := key }

/-! The chat endpoint and bearer authentication. -/

/-- The identity dict the Credential Validator returns for a valid key. -/
structure UserData where
  user_name : String
  deriving DecidableEq

structure ChatResponse where
  response : String
  deriving DecidableEq

/-- The authenticated response templates of gpt_chat. -/
def authenticatedResponses (user_name : String) : List String :=
  ["Hello " ++ user_name ++ ", I\x27m SpaceWH AI. How can I assist you today?",
   "Thanks for your question, " ++ user_name ++ ". Let me think about it...",
   "Based on my knowledge, " ++ user_name ++ ", I would recommend the following approach...",
   "I\x27d need more information to answer that fully, " ++ user_name ++ ". Can you provide more details?",
   "That\x27s an interesting query, " ++ user_name ++ ", but it\x27s beyond my current capabilities."]

/-- The anonymous response templates of gpt_chat. -/
def anonymousResponses : List String :=
  ["I\x27m SpaceWH AI. How can I assist you today?",
   "That\x27s an interesting question. Let me think about it...",
   "Based on my knowledge, I would recommend the following approach...",
   "I don\x27t have enough information to answer that fully. Can you provide more details?",
   "That\x27s beyond my current capabilities, but I\x27m constantly learning."]

/-- Models random.choice: k is the random draw, reduced modulo the list length. -/
def pickResponse (l : List String) (k : Nat) : String := l.getD (k % l.length) ""

/-- The get_current_user dependency.  The external call
supabase.validate_key enters as the parameter validate (Except Unit
models a raised store exception, Option UserData the falsy / truthy
result dict).  No credential yields no user; a store exception yields
HTTP 500; an invalid key yields no user, not an error. -/
def get_current_user (validate : String → Except Unit (Option UserData))
    (credentials : Option String) : Except HTTPError (Option UserData) :=
  match credentials with
  | none => .ok none
  | some key =>
    match validate key with
    | .error _ => .error ⟨500, "Supabase validation failed"⟩
    | .ok none => .ok none
    | .ok (some u) => .ok (some u)

/-- The gpt_chat handler body.  The prompt is accepted but never read by
the source; k is the random draw of random.choice. -/
def gpt_chat (prompt : String) (k : Nat) (user_data : Option UserData) : ChatResponse :=
  match user_data with
  | some u => ⟨pickResponse (authenticatedResponses u.user_name) k⟩
  | none => ⟨pickResponse anonymousResponses k⟩

/-- POST /gpt-chat: the dependency resolution followed by the handler. -/
def gpt_chat_endpoint (validate : String → Except Unit (Option UserData))
    (credentials : Option String) (prompt : String) (k : Nat) :
    Except HTTPError ChatResponse :=
  match get_current_user validate credentials with
  | .error e => .error e
  | .ok user_data => .ok (gpt_chat prompt k user_data)

/-! The WebSocket session gateway (/ws handler loop body).

All effects of one loop iteration are messages sent back to the same
client through send_personal_message, plus the mutation of the local
auth_token variable; the handler never calls broadcast and never
closes the socket on a protocol error, so one step is embedded as a
pure function from validator, random draw, session state and incoming
envelope to new state and the list of outgoing envelopes. -/

/-- Per-session state: the cached auth_token local of websocket_endpoint. -/
structure WsSession where
  auth_token : Option String
  deriving DecidableEq

/-- Incoming envelopes after JSON parsing and type dispatch.  Absent
token and content fields are none; malformed stands for a JSON parse
failure. -/
inductive WsIncoming where
  | auth (token : Option String)
  | chat_message (content : Option String)
  | other
  | malformed
  deriving DecidableEq

/-- Payload of a chat_response envelope: the dict returned by
process_chat_message, either a content entry or an error entry. -/
inductive ChatPayload where
  | content (text : String)
  | failure (error_msg : String)
  deriving DecidableEq

/-- Outgoing envelopes of the gateway. -/
inductive WsOutgoing where
  | auth_success (user_name : String)
  | auth_failed (error_msg : String)
  | chat_response (payload : ChatPayload)
  | error_envelope (error_msg : String)
  deriving DecidableEq

/-- The process_chat_message helper: re-validates the cached token
against the store state current at message time, then runs the
gpt_chat logic on the validated identity. -/
def process_chat_message (validate : String → Option UserData) (k : Nat)
    (content : String) (auth_token : String) : ChatPayload :=
  match validate auth_token with
  | none => .failure "Invalid authentication token"
  | some u => .content (gpt_chat content k (some u)).response

/-- One iteration of the websocket_endpoint receive loop.  validate is
the Credential Validator at the time the message is handled (an
external call into supabase.validate_key, so revocation between
messages is modelled by handing a different validate to a later
step); k is the random draw used if a chat reply is generated.
Python truthiness of the token and content strings (None and empty
string are falsy) is mirrored by the Option and isEmpty tests. -/
def wsStep (validate : String → Option UserData) (k : Nat)
    (st : WsSession) (msg : WsIncoming) : WsSession × List WsOutgoing :=
  match msg with
  | .auth token? =>
    match token? with
    | some token =>
      if token.isEmpty then (st, [.auth_failed "Invalid authentication token"])
      else
        match validate token with
        | some u => ({ st with auth_token := some token }, [.auth_success u.user_name])
        | none => (st, [.auth_failed "Invalid authentication token"])
    | none => (st, [.auth_failed "Invalid authentication token"])
  | .chat_message content? =>
    match st.auth_token with
    | none => (st, [.error_envelope "Authentication required"])
    | some tok =>
      match content? with
      | some content =>
        if content.isEmpty then (st, [])
        else (st, [.chat_response (process_chat_message validate k content tok)])
      | none => (st, [])
  | .other => (st, [])
  | .malformed => (st, [.error_envelope "Invalid message format"])

/-! The ConnectionManager and its broadcast. -/

/-- The manager: client ids in dict insertion order (each mapped to its
channel handle in the source), plus the state of the asyncio.Lock. -/
structure ConnectionManager where
  active_connections : List String
  lockHeld : Bool
  deriving DecidableEq

/-- Registry removal performed by disconnect once it holds the lock. -/
def ConnectionManager.removeClient (m : ConnectionManager) (client_id : String) : ConnectionManager :=
  { m with active_connections := m.active_connections.filter (fun cid => cid != client_id) }

inductive BroadcastOutcome where
  | completed
  | deadlocked (client : String)
  deriving DecidableEq

/-- Result of running broadcast to completion or to its stuck point:
the manager state, the clients the message reached in order, and
whether the coroutine finished or suspended forever. -/
structure BroadcastRun where
  manager : ConnectionManager
  delivered : List String
  outcome : BroadcastOutcome
  deriving DecidableEq

/-- The iteration of broadcast over the snapshot taken under the lock.
sendOk tells whether send_text to a given client succeeds.  When a
send raises, the source calls self.disconnect(client_id), which
re-acquires self._lock; that lock is already held by this same
coroutine and asyncio.Lock is not reentrant, so the acquire suspends
forever: the run ends in the deadlocked outcome with the lock still
held, the registry untouched and the remaining clients undelivered. -/
def broadcastLoop (sendOk : String → Bool) (exclude : Option String) :
    List String → ConnectionManager → List String → BroadcastRun
  | [], m, delivered => ⟨{ m with lockHeld := false }, delivered, .completed⟩
  | cid :: rest, m, delivered =>
    if exclude = some cid then broadcastLoop sendOk exclude rest m delivered
    else if sendOk cid then broadcastLoop sendOk exclude rest m (delivered ++ [cid])
    else ⟨m, delivered, .deadlocked cid⟩

/-- The broadcast method: acquires the lock, snapshots the registry
items, and iterates.  The message text does not influence control
flow and is omitted from the run result. -/
def ConnectionManager.broadcast (m : ConnectionManager) (sendOk : String → Bool)
    (exclude : Option String) : BroadcastRun :=
  broadcastLoop sendOk exclude m.active_connections { m with lockHeld := true } []

/-! Concrete stores used by the theorems below. -/

/-- A store already holding an active membership for INVITE1. -/
def c1_store : Store :=
  ⟨[], [], [membership_payload "INVITE1" "MEMBER-0A0A0A" "MEMBER-0A0A0A-5" "Ada" "5"]⟩

/-- A pending invitation ABC123, as created by create-invitation. -/
def c2_invitation : Rec :=
  [("code", "ABC123"), ("pin", "4821"), ("invited_name", "Ada"), ("status", "pending")]

/-- A store holding only the pending invitation ABC123. -/
def c2_store : Store := ⟨[c2_invitation], [], []⟩

/-- An onboarded invitation INVITE1, ready for approval. -/
def c3_onboarded_store : Store :=
  ⟨[[("code", "INVITE1"), ("invited_name", "Ada"), ("status", "onboarded")]], [], []⟩

/-- The store after approving INVITE1 with random bytes 0,0,0 at time 1000. -/
def c3_issued_store : Store :=
  ⟨[[("code", "INVITE1"), ("invited_name", "Ada"), ("status", "onboarded")]], [],
   [membership_payload "INVITE1" "MEMBER-000000" "MEMBER-000000-1000" "Ada" "1000"]⟩

/-- The pending invitation ABC123 before onboarding. -/
def c4_invitation : Rec :=
  [("code", "ABC123"), ("pin", "4821"), ("invited_name", "Ada"), ("status", "pending")]

/-- Store before the onboarding submission. -/
def c4_store0 : Store := ⟨[c4_invitation], [], []⟩

/-- Store after the onboarding submission: an onboarding row was added,
the invitation row is untouched. -/
def c4_store1 : Store :=
  ⟨[c4_invitation],
   [[("invitation_code", "ABC123"), ("voice_consent", "true"), ("responses", "answers")]],
   []⟩

/-- Two onboarded invitations awaiting approval. -/
def c5_store0 : Store :=
  ⟨[[("code", "INVA"), ("invited_name", "Ada"), ("status", "onboarded")],
    [("code", "INVB"), ("invited_name", "Bob"), ("status", "onboarded")]], [], []⟩

/-- c5_store0 after approving INVA with bytes 0,0,0 at time 1000. -/
def c5_store1 : Store :=
  ⟨c5_store0.invitations, [],
   [membership_payload "INVA" "MEMBER-000000" "MEMBER-000000-1000" "Ada" "1000"]⟩

/-- c5_store1 after approving INVB with the same bytes at the same time. -/
def c5_store2 : Store :=
  ⟨c5_store0.invitations, [],
   [membership_payload "INVA" "MEMBER-000000" "MEMBER-000000-1000" "Ada" "1000",
    membership_payload "INVB" "MEMBER-000000" "MEMBER-000000-1000" "Bob" "1000"]⟩

/-- c5_store1 after approving INVB with the same bytes one second later. -/
def c5_store2b : Store :=
  ⟨c5_store0.invitations, [],
   [membership_payload "INVA" "MEMBER-000000" "MEMBER-000000-1000" "Ada" "1000",
    membership_payload "INVB" "MEMBER-000000" "MEMBER-000000-1001" "Bob" "1001"]⟩

/-- Response of the first c5 approval. -/
def c5_resp1 : ApproveMembershipResponse :=
  ⟨true, "Membership approved.", "MEMBER-000000-1000", "MEMBER-000000"⟩

/-- Response of the second c5 approval at time 1001. -/
def c5_resp2 : ApproveMembershipResponse :=
  ⟨true, "Membership approved.", "MEMBER-000000-1001", "MEMBER-000000"⟩

/-- A validator knowing two distinct identities. -/
def c6_validate : String → Option UserData := fun t =>
  if t = "KEY-A" then some ⟨"alice"⟩ else if t = "KEY-B" then some ⟨"bob"⟩ else none

/-- The validator before revocation: KEY-A is an active membership. -/
def c7_validate_live : String → Option UserData := fun t =>
  if t = "KEY-A" then some ⟨"alice"⟩ else none

/-- The validator after KEY-A is deactivated: no key validates. -/
def c7_validate_revoked : String → Option UserData := fun _ => none

/-- Registry with sessions A, B, C and the lock free. -/
def c8_manager : ConnectionManager := ⟨["A", "B", "C"], false⟩

/-- Channel health: delivery to B fails, A and C are fine. -/
def c8_sendOk : String → Bool := fun cid => cid != "B"

/-! Helper lemmas about the store query. -/

/-- A matching record in the collection makes the query non-empty. -/
lemma applyFilter_isEmpty_false {coll : List Rec} {flt : List (String × String)} {r : Rec}
    (hr : r ∈ coll) (hm : matchesFilter r flt = true) :
    (applyFilter coll flt).isEmpty = false := by
  have hmem : r ∈ applyFilter coll flt := List.mem_filter.mpr ⟨hr, hm⟩
  rcases h : applyFilter coll flt with _ | ⟨a, l⟩
  · rw [h] at hmem; cases hmem
  · rfl

/-- When no record matches, the query is empty. -/
lemma applyFilter_eq_nil {coll : List Rec} {flt : List (String × String)}
    (h : ∀ r ∈ coll, matchesFilter r flt = false) :
    applyFilter coll flt = [] := by
  refine List.filter_eq_nil_iff.mpr (fun r hr => ?_)
  simp [h r hr]

/-- The inserted membership row satisfies the replay-guard filter of its own
invitation code. -/
lemma membership_payload_matches_guard (c mc mk it ia : String) :
    matchesFilter (membership_payload c mc mk it ia)
      [("invitation_code", c), ("active", "true")] = true := by
  have h1 : Rec.getField (membership_payload c mc mk it ia) "invitation_code" = some c := rfl
  have h2 : Rec.getField (membership_payload c mc mk it ia) "active" = some "true" := rfl
  simp [matchesFilter, h1, h2]

/-- Inversion of a successful approval: the response carries the generated
code and key, and the new store is the old one plus the inserted row. -/
lemma approve_ok_inv {s : Store} {c : String} {u : Option String} {b : List Nat} {t : Nat}
    {r : ApproveMembershipResponse} {s' : Store}
    (h : approve_membership s c u b t = .ok (r, s')) :
    r.success = true ∧ r.message = "Membership approved." ∧
    r.membership_code = "MEMBER-" ++ strUpper (token_hex b) ∧
    r.membership_key = ("MEMBER-" ++ strUpper (token_hex b)) ++ "-" ++ natToDec t ∧
    ∃ issued_to, s' = { s with memberships := s.memberships ++
      [membership_payload c ("MEMBER-" ++ strUpper (token_hex b))
        (("MEMBER-" ++ strUpper (token_hex b)) ++ "-" ++ natToDec t)
        issued_to (natToDec t)] } := by
  unfold approve_membership at h
  split at h
  · split at h
    · exact absurd h (by simp)
    · split at h
      · simp only [Except.ok.injEq, Prod.mk.injEq] at h
        obtain ⟨hr, hs⟩ := h
        subst hr
        subst hs
        exact ⟨rfl, rfl, rfl, rfl, _, rfl⟩
      · exact absurd h (by simp)
  · exact absurd h (by simp)

/-- A matching active membership forces the 409 reply. -/
lemma approve_conflict_of_match {s : Store} {c : String} (u : Option String)
    (b : List Nat) (t : Nat)
    (h : ∃ r ∈ s.memberships, matchesFilter r [("invitation_code", c), ("active", "true")] = true) :
    approve_membership s c u b t =
      .error ⟨409, "Membership already exists for this invitation code."⟩ := by
  obtain ⟨r, hr, hm⟩ := h
  unfold approve_membership
  rw [applyFilter_isEmpty_false hr hm]
  simp

/-- C1: Replay prevention for approval.  Whenever some stored membership
row matches the replay-guard filter (invitation_code = X, active = true),
approve fails with 409 Conflict, uniformly in the random bytes and the
timestamp, with no success response and no new store returned (so no
record is written and no credential escapes); consequently a second
approve in sequence on the invitation code of a successful first approve
always yields the Conflict. -/
theorem approve_replay_conflict :
    ∀ (s : Store) (c : String) (u : Option String) (b : List Nat) (t : Nat),
    ((∃ r ∈ s.memberships,
        matchesFilter r [("invitation_code", c), ("active", "true")] = true) →
      approve_membership s c u b t =
        .error ⟨409, "Membership already exists for this invitation code."⟩)
    ∧ (∀ r1 s1, approve_membership s c u b t = .ok (r1, s1) →
        ∀ (u2 : Option String) (b2 : List Nat) (t2 : Nat),
          approve_membership s1 c u2 b2 t2 =
            .error ⟨409, "Membership already exists for this invitation code."⟩) := by
  intro s c u b t
  constructor
  · exact approve_conflict_of_match u b t
  · intro r1 s1 hok u2 b2 t2
    obtain ⟨-, -, -, -, it, hs1⟩ := approve_ok_inv hok
    refine approve_conflict_of_match u2 b2 t2
      ⟨membership_payload c ("MEMBER-" ++ strUpper (token_hex b))
        (("MEMBER-" ++ strUpper (token_hex b)) ++ "-" ++ natToDec t) it (natToDec t),
       ?_, membership_payload_matches_guard ..⟩
    rw [hs1]
    simp

/-- Witness for C1 at a concrete store. -/
theorem approve_replay_conflict_witness :
    approve_membership c1_store "INVITE1" none [0, 0, 0] 7 =
      .error ⟨409, "Membership already exists for this invitation code."⟩ :=
  (approve_replay_conflict c1_store "INVITE1" none [0, 0, 0] 7).1
    ⟨membership_payload "INVITE1" "MEMBER-0A0A0A" "MEMBER-0A0A0A-5" "Ada" "5",
     by simp [c1_store],
     membership_payload_matches_guard "INVITE1" "MEMBER-0A0A0A" "MEMBER-0A0A0A-5" "Ada" "5"⟩

/-- C2: Approval precondition and atomicity on error.  When no active
membership exists for the invitation code, approve fails 404 when the
invitation is absent and 400 when its status is not onboarded; both
failures are uniform in the random bytes and the timestamp (the
precondition check runs before credential generation) and return no
updated store, so no membership row is created and no credential is
generated. -/
theorem approve_precondition_failures :
    ∀ (s : Store) (c : String) (u : Option String) (b : List Nat) (t : Nat),
    (∀ r ∈ s.memberships,
        matchesFilter r [("invitation_code", c), ("active", "true")] = false) →
    (applyFilter s.invitations [("code", c)] = [] →
       approve_membership s c u b t = .error ⟨404, "Invitation not found."⟩)
    ∧ (∀ inv rest, applyFilter s.invitations [("code", c)] = inv :: rest →
       inv.getField "status" ≠ some "onboarded" →
       approve_membership s c u b t = .error ⟨400, "Invitation not onboarded yet."⟩) := by
  intro s c u b t hnone
  have hguard : (applyFilter s.memberships
      [("invitation_code", c), ("active", "true")]).isEmpty = true := by
    rw [applyFilter_eq_nil hnone]; rfl
  constructor
  · intro hinv
    unfold approve_membership
    rw [hinv]
    simp [hguard]
  · intro inv rest hinv hstatus
    unfold approve_membership
    rw [hinv]
    simp [hguard, hstatus]

/-- Witness for C2 at a concrete store: approving a pending invitation
fails with 400. -/
theorem approve_precondition_failures_witness :
    approve_membership c2_store "ABC123" none [1, 2, 3] 9 =
      .error ⟨400, "Invitation not onboarded yet."⟩ :=
  (approve_precondition_failures c2_store "ABC123" none [1, 2, 3] 9
      (by intro r hr; cases hr)).2
    c2_invitation [] (by decide) (by decide)

/-- C3, evaluated at the failing input: a successful approve stores a
membership row carrying membership_code MEMBER-000000 with field
active = true and no status field, yet validate-key answers 404 Invalid
both for that membership_code and for the full membership_key, because
it filters on a status field the membership rows never have.  The
validator therefore never returns valid for the one active matching
membership the claim requires it to accept. -/
theorem validate_key_rejects_issued_membership :
    approve_membership c3_onboarded_store "INVITE1" none [0, 0, 0] 1000 =
      .ok (⟨true, "Membership approved.", "MEMBER-000000-1000", "MEMBER-000000"⟩,
           c3_issued_store)
    ∧ (∃ r ∈ c3_issued_store.memberships,
        r.getField "membership_code" = some "MEMBER-000000"
        ∧ r.getField "active" = some "true"
        ∧ r.getField "status" = none)
    ∧ validate_key c3_issued_store "MEMBER-000000" = .error ⟨404, "Invalid membership key"⟩
    ∧ validate_key c3_issued_store "MEMBER-000000-1000" =
        .error ⟨404, "Invalid membership key"⟩ :=
  ⟨rfl,
   ⟨membership_payload "INVITE1" "MEMBER-000000" "MEMBER-000000-1000" "Ada" "1000",
    by simp [c3_issued_store], rfl, rfl, rfl⟩,
   rfl, rfl⟩

/-- C4, evaluated at the failing input: submit-onboarding for the pending
invitation ABC123 succeeds, but the invitations collection is unchanged
and the status of ABC123 is still pending, so a subsequent approve fails
the precondition check with 400 instead of passing it. -/
theorem submit_onboarding_leaves_invitation_pending :
    submit_onboarding c4_store0 "ABC123" true "answers" =
      .ok (⟨"submitted", "ABC123"⟩, c4_store1)
    ∧ c4_store1.invitations = c4_store0.invitations
    ∧ ((applyFilter c4_store1.invitations [("code", "ABC123")]).head?.bind
        (fun r => r.getField "status")) = some "pending"
    ∧ approve_membership c4_store1 "ABC123" none [0, 0, 0] 1000 =
        .error ⟨400, "Invitation not onboarded yet."⟩ :=
  ⟨rfl, rfl, rfl, rfl⟩

/-! Injectivity of the decimal rendering, needed for key uniqueness. -/

/-- Decoding inverts the digit computation while the fuel suffices. -/
lemma decValue_decDigitsAux : ∀ (fuel n : Nat), n ≤ fuel → decValue (decDigitsAux fuel n) = n := by
  intro fuel
  induction fuel with
  | zero =>
    intro n hn
    have h0 : n = 0 := Nat.le_zero.mp hn
    subst h0; rfl
  | succ f ih =>
    intro n hn
    show decValue (if n < 10 then [n] else n % 10 :: decDigitsAux f (n / 10)) = n
    by_cases h10 : n < 10
    · rw [if_pos h10]
      show n + 10 * 0 = n
      omega
    · rw [if_neg h10]
      show n % 10 + 10 * decValue (decDigitsAux f (n / 10)) = n
      have hlt : n / 10 < n := Nat.div_lt_self (by omega) (by omega)
      rw [ih (n / 10) (by omega)]
      omega

/-- Decoding inverts decDigits. -/
lemma decValue_decDigits (n : Nat) : decValue (decDigits n) = n :=
  decValue_decDigitsAux (n + 1) n (Nat.le_succ n)

/-- decDigits is injective. -/
lemma decDigits_inj {m n : Nat} (h : decDigits m = decDigits n) : m = n := by
  have h2 := congrArg decValue h
  rwa [decValue_decDigits, decValue_decDigits] at h2

/-- Every produced decimal digit is below ten. -/
lemma decDigitsAux_lt_ten : ∀ (fuel n d : Nat), d ∈ decDigitsAux fuel n → d < 10 := by
  intro fuel
  induction fuel with
  | zero =>
    intro n d hd
    cases hd
  | succ f ih =>
    intro n d hd
    have hd2 : d ∈ if n < 10 then [n] else n % 10 :: decDigitsAux f (n / 10) := hd
    by_cases h10 : n < 10
    · rw [if_pos h10] at hd2
      cases hd2 with
      | head => exact h10
      | tail _ h => cases h
    · rw [if_neg h10] at hd2
      cases hd2 with
      | head => exact Nat.mod_lt _ (by omega)
      | tail _ h => exact ih (n / 10) d h

/-- digitChar separates digits below ten. -/
lemma digitChar_inj_lt_ten : ∀ a, a < 10 → ∀ b, b < 10 →
    Nat.digitChar a = Nat.digitChar b → a = b := by decide

/-- Mapping digitChar over digit lists below ten is injective. -/
lemma map_digitChar_inj : ∀ (l1 l2 : List Nat), (∀ d ∈ l1, d < 10) → (∀ d ∈ l2, d < 10) →
    l1.map Nat.digitChar = l2.map Nat.digitChar → l1 = l2 := by
  intro l1
  induction l1 with
  | nil =>
    intro l2 _ _ h
    cases l2 with
    | nil => rfl
    | cons b t2 => simp at h
  | cons a t ih =>
    intro l2 h1 h2 h
    cases l2 with
    | nil => simp at h
    | cons b t2 =>
      simp only [List.map_cons, List.cons.injEq] at h
      obtain ⟨hab, ht⟩ := h
      have ha : a < 10 := h1 a (List.mem_cons_self a t)
      have hb : b < 10 := h2 b (List.mem_cons_self b t2)
      have hab2 := digitChar_inj_lt_ten a ha b hb hab
      subst hab2
      rw [ih t2 (fun d hd => h1 d (List.mem_cons_of_mem a hd))
        (fun d hd => h2 d (List.mem_cons_of_mem a hd)) ht]

/-- The decimal rendering is injective. -/
lemma natToDec_inj {m n : Nat} (h : natToDec m = natToDec n) : m = n := by
  unfold natToDec at h
  injection h with hdata
  have hrev := map_digitChar_inj (decDigits m).reverse (decDigits n).reverse
    (fun d hd => decDigitsAux_lt_ten _ _ d (List.mem_reverse.mp hd))
    (fun d hd => decDigitsAux_lt_ten _ _ d (List.mem_reverse.mp hd)) hdata
  exact decDigits_inj (List.reverse_injective hrev)

/-- A membership key determines the hex component and the timestamp,
once the hex component has its generated length. -/
lemma membership_key_inj {h1 h2 : String} {t1 t2 : Nat}
    (e1 : h1.length = 6) (e2 : h2.length = 6)
    (h : ("MEMBER-" ++ h1) ++ "-" ++ natToDec t1 = ("MEMBER-" ++ h2) ++ "-" ++ natToDec t2) :
    h1 = h2 ∧ t1 = t2 := by
  have hd := congrArg String.data h
  simp only [String.data_append, List.append_assoc] at hd
  have hd2 := List.append_cancel_left hd
  have hlen : h1.data.length = h2.data.length := e1.trans e2.symm
  obtain ⟨hh, ht⟩ := List.append_inj hd2 hlen
  refine ⟨congrArg String.mk hh, ?_⟩
  have ht2 := List.append_cancel_left ht
  exact natToDec_inj (congrArg String.mk ht2)

/-- Three bytes hex-encode and uppercase to six characters. -/
lemma strUpper_token_hex_length (b0 b1 b2 : Nat) :
    (strUpper (token_hex [b0, b1, b2])).length = 6 := rfl

/-- Uppercasing a digitChar of a value below sixteen lands in the
uppercase hexadecimal alphabet. -/
lemma digitChar_toUpper_hex : ∀ n, n < 16 →
    isUpperHexDigit (Char.toUpper (Nat.digitChar n)) = true := by decide

/-- Every character of the uppercased hex encoding of bytes is an
uppercase hexadecimal digit. -/
lemma strUpper_token_hex_chars (bytes : List Nat) (hb : ∀ b ∈ bytes, b < 256) :
    ∀ c ∈ (strUpper (token_hex bytes)).data, isUpperHexDigit c = true := by
  intro c hc
  have hc2 : c ∈ List.map Char.toUpper (List.flatten (bytes.map byteHexChars)) := hc
  rw [List.mem_map] at hc2
  obtain ⟨c0, hc0, rfl⟩ := hc2
  rw [List.mem_flatten] at hc0
  obtain ⟨l, hl, hc0l⟩ := hc0
  rw [List.mem_map] at hl
  obtain ⟨b, hbmem, rfl⟩ := hl
  have hb256 : b < 256 := hb b hbmem
  have : c0 = Nat.digitChar (b / 16) ∨ c0 = Nat.digitChar (b % 16) := by
    simpa [byteHexChars] using hc0l
  rcases this with rfl | rfl
  · exact digitChar_toUpper_hex (b / 16) (by omega)
  · exact digitChar_toUpper_hex (b % 16) (Nat.mod_lt _ (by omega))

/-- C5 counterexample: two approvals that draw the same random bytes in
the same second issue two memberships with equal membership_keys, so
issuing N memberships does not always produce N pairwise-distinct keys
as the claim states. -/
theorem approve_key_collision :
    approve_membership c5_store0 "INVA" none [0, 0, 0] 1000 = .ok (c5_resp1, c5_store1)
    ∧ approve_membership c5_store1 "INVB" none [0, 0, 0] 1000 = .ok (c5_resp1, c5_store2)
    ∧ c5_store2.memberships.length = 2
    ∧ (∀ r ∈ c5_store2.memberships,
        r.getField "membership_key" = some "MEMBER-000000-1000") :=
  ⟨rfl, rfl, rfl, by decide⟩

/-- C5 amended: every successful approve returns a membership_key equal
to the membership_code, a dash and the decimal issuance timestamp, with
membership_code equal to MEMBER- followed by the six-character uppercase
hex encoding of the three random bytes; and two issuances whose
(random hex, timestamp) pairs differ produce distinct membership_keys
(so N issuances with pairwise-distinct draws produce N distinct keys). -/
theorem approve_key_shape_and_uniqueness :
    (∀ (s : Store) (c : String) (u : Option String) (b0 b1 b2 : Nat) (t : Nat) r s',
      approve_membership s c u [b0, b1, b2] t = .ok (r, s') →
      b0 < 256 → b1 < 256 → b2 < 256 →
      r.membership_key = r.membership_code ++ "-" ++ natToDec t
      ∧ r.membership_code = "MEMBER-" ++ strUpper (token_hex [b0, b1, b2])
      ∧ (strUpper (token_hex [b0, b1, b2])).length = 6
      ∧ (∀ c0 ∈ (strUpper (token_hex [b0, b1, b2])).data, isUpperHexDigit c0 = true))
    ∧ (∀ (sA : Store) (cA : String) (uA : Option String) (bA : List Nat) (tA : Nat) rA sA2
        (sB : Store) (cB : String) (uB : Option String) (bB : List Nat) (tB : Nat) rB sB2,
      approve_membership sA cA uA bA tA = .ok (rA, sA2) →
      approve_membership sB cB uB bB tB = .ok (rB, sB2) →
      (strUpper (token_hex bA)).length = 6 →
      (strUpper (token_hex bB)).length = 6 →
      (strUpper (token_hex bA), tA) ≠ (strUpper (token_hex bB), tB) →
      rA.membership_key ≠ rB.membership_key) := by
  constructor
  · intro s c u b0 b1 b2 t r s' hok hb0 hb1 hb2
    obtain ⟨-, -, hcode, hkey, -, -⟩ := approve_ok_inv hok
    refine ⟨?_, hcode, strUpper_token_hex_length b0 b1 b2, ?_⟩
    · rw [hkey, hcode]
    · exact strUpper_token_hex_chars [b0, b1, b2]
        (by intro b hb
            simp only [List.mem_cons, List.not_mem_nil, or_false] at hb
            rcases hb with rfl | rfl | rfl <;> assumption)
  · intro sA cA uA bA tA rA sA2 sB cB uB bB tB rB sB2 hok1 hok2 hl1 hl2 hne hkeyeq
    obtain ⟨-, -, -, hkey1, -, -⟩ := approve_ok_inv hok1
    obtain ⟨-, -, -, hkey2, -, -⟩ := approve_ok_inv hok2
    rw [hkey1, hkey2] at hkeyeq
    obtain ⟨hh, ht⟩ := membership_key_inj hl1 hl2 hkeyeq
    exact hne (by rw [hh, ht])

/-- Witness for C5 at two concrete issuances one second apart: the
amended uniqueness yields distinct keys. -/
theorem approve_key_shape_and_uniqueness_witness :
    c5_resp1.membership_key ≠ c5_resp2.membership_key :=
  approve_key_shape_and_uniqueness.2 c5_store0 "INVA" none [0, 0, 0] 1000 c5_resp1 c5_store1
    c5_store1 "INVB" none [0, 0, 0] 1001 c5_resp2 c5_store2b
    rfl rfl rfl rfl (by decide)

/-- C6 counterexample: a session authenticated as alice via KEY-A
processes a later auth envelope carrying the different valid key KEY-B
and is rebound to bob, so the bound identity of an open session is not
immutable. -/
theorem auth_rebinds_on_second_auth :
    wsStep c6_validate 0 ⟨none⟩ (.auth (some "KEY-A")) =
      (⟨some "KEY-A"⟩, [.auth_success "alice"])
    ∧ wsStep c6_validate 0 ⟨some "KEY-A"⟩ (.auth (some "KEY-B")) =
      (⟨some "KEY-B"⟩, [.auth_success "bob"])
    ∧ (WsSession.mk (some "KEY-B") ≠ WsSession.mk (some "KEY-A")) :=
  ⟨rfl, rfl, by decide⟩

/-- C6 amended: the bound token is stable under every non-auth envelope
and under failed auth attempts, but a later auth envelope carrying a
valid key rebinds the session to that key regardless of the identity
already bound. -/
theorem session_identity_rebinding :
    ∀ (validate : String → Option UserData) (k : Nat) (st : WsSession),
    (∀ content, (wsStep validate k st (.chat_message content)).1 = st)
    ∧ ((wsStep validate k st .other).1 = st)
    ∧ ((wsStep validate k st .malformed).1 = st)
    ∧ ((wsStep validate k st (.auth none)).1 = st)
    ∧ (∀ t, t.isEmpty = true → (wsStep validate k st (.auth (some t))).1 = st)
    ∧ (∀ t, t.isEmpty = false → validate t = none →
        (wsStep validate k st (.auth (some t))).1 = st)
    ∧ (∀ t u, t.isEmpty = false → validate t = some u →
        (wsStep validate k st (.auth (some t))).1 = ⟨some t⟩) := by
  intro validate k st
  obtain ⟨tok⟩ := st
  refine ⟨?_, rfl, rfl, rfl, ?_, ?_, ?_⟩
  · intro content
    cases tok with
    | none => rfl
    | some tk =>
      cases content with
      | none => rfl
      | some c =>
        by_cases hc : c.isEmpty <;> simp [wsStep, hc]
  · intro t ht
    simp [wsStep, ht]
  · intro t ht hv
    simp [wsStep, ht, hv]
  · intro t u ht hv
    simp [wsStep, ht, hv]

/-- Witness for C6: a session bound to KEY-A is rebound to KEY-B by a
later valid auth envelope. -/
theorem session_identity_rebinding_witness :
    (wsStep c6_validate 0 ⟨some "KEY-A"⟩ (.auth (some "KEY-B"))).1 = ⟨some "KEY-B"⟩ :=
  (session_identity_rebinding c6_validate 0 ⟨some "KEY-A"⟩).2.2.2.2.2.2
    "KEY-B" ⟨"bob"⟩ rfl rfl

/-- C7 counterexample: after a successful handshake with KEY-A, a
chat_message handled once the key has been revoked is answered with an
Invalid authentication token failure, while the same message under the
pre-revocation validator is answered with content — the chat path
consults the Credential Validator again and a revoked key is not
usable. -/
theorem revoked_key_rejected_after_handshake :
    wsStep c7_validate_live 0 ⟨none⟩ (.auth (some "KEY-A")) =
      (⟨some "KEY-A"⟩, [.auth_success "alice"])
    ∧ wsStep c7_validate_revoked 0 ⟨some "KEY-A"⟩ (.chat_message (some "hi")) =
      (⟨some "KEY-A"⟩, [.chat_response (.failure "Invalid authentication token")])
    ∧ wsStep c7_validate_live 0 ⟨some "KEY-A"⟩ (.chat_message (some "hi")) =
      (⟨some "KEY-A"⟩,
       [.chat_response (.content (pickResponse (authenticatedResponses "alice") 0))])
    ∧ (WsOutgoing.chat_response (.failure "Invalid authentication token") ≠
        WsOutgoing.chat_response (.content (pickResponse (authenticatedResponses "alice") 0))) :=
  ⟨rfl, rfl, rfl, by decide⟩

/-- C7 amended: only the token string is cached per session; every
chat_message re-invokes the Credential Validator with the cached token,
so the reply is content exactly when the token is valid at message
time, and a revoked token yields the Invalid authentication token
failure for the remaining chat messages of the session. -/
theorem chat_message_revalidates :
    ∀ (validate : String → Option UserData) (k : Nat) (tok content : String),
    content.isEmpty = false →
    (validate tok = none →
      wsStep validate k ⟨some tok⟩ (.chat_message (some content)) =
        (⟨some tok⟩, [.chat_response (.failure "Invalid authentication token")]))
    ∧ (∀ u, validate tok = some u →
      wsStep validate k ⟨some tok⟩ (.chat_message (some content)) =
        (⟨some tok⟩,
         [.chat_response (.content (pickResponse (authenticatedResponses u.user_name) k))])) := by
  intro validate k tok content hc
  constructor
  · intro hv
    simp [wsStep, hc, hv, process_chat_message]
  · intro u hv
    simp [wsStep, hc, hv, process_chat_message, gpt_chat]

/-- Witness for C7: the revoked validator makes the authenticated
session's chat fail at message time. -/
theorem chat_message_revalidates_witness :
    wsStep c7_validate_revoked 0 ⟨some "KEY-A"⟩ (.chat_message (some "hi")) =
      (⟨some "KEY-A"⟩, [.chat_response (.failure "Invalid authentication token")]) :=
  (chat_message_revalidates c7_validate_revoked 0 "KEY-A" "hi" rfl).1 rfl

/-- C8, evaluated at the failing input: broadcasting to registry A, B, C
with the channel of B broken delivers only to A, then deadlocks inside
disconnect while re-acquiring the non-reentrant lock the broadcast
already holds; C is never reached, B is never removed, and the whole
registry (B included) survives with the lock still held. -/
theorem broadcast_deadlock_on_failing_peer :
    ConnectionManager.broadcast c8_manager c8_sendOk none =
      ⟨⟨["A", "B", "C"], true⟩, ["A"], .deadlocked "B"⟩
    ∧ "B" ∈ (ConnectionManager.broadcast c8_manager c8_sendOk none).manager.active_connections
    ∧ "C" ∉ (ConnectionManager.broadcast c8_manager c8_sendOk none).delivered
    ∧ (ConnectionManager.broadcast c8_manager c8_sendOk none).outcome ≠ .completed :=
  ⟨rfl, by decide, by decide, by decide⟩

/-- C9: on a session whose auth_token is unset, a chat_message envelope
(with or without content) produces exactly one outgoing envelope, the
error reply Authentication required, and leaves the session state
unchanged: no chat_response, no responder call, no broadcast, session
still open and still unauthenticated. -/
theorem unauthenticated_chat_rejected :
    ∀ (validate : String → Option UserData) (k : Nat) (st : WsSession) (content : Option String),
    st.auth_token = none →
    wsStep validate k st (.chat_message content) =
      (st, [.error_envelope "Authentication required"]) := by
  intro validate k st content h
  obtain ⟨tok⟩ := st
  have h2 : tok = none := h
  subst h2
  rfl

/-- Witness for C9 on a fresh session. -/
theorem unauthenticated_chat_rejected_witness :
    wsStep c6_validate 0 ⟨none⟩ (.chat_message (some "hi")) =
      (⟨none⟩, [.error_envelope "Authentication required"]) :=
  unauthenticated_chat_rejected c6_validate 0 ⟨none⟩ (some "hi") rfl

/-- C10: when the validator finds no active membership for the presented
bearer key, get_current_user yields no user rather than an error, and
the gpt-chat endpoint answers 200 with an anonymous response, exactly
as it answers the same request with no credential at all — never 401. -/
theorem invalid_bearer_served_as_anonymous :
    ∀ (validate : String → Except Unit (Option UserData)) (key prompt : String) (k : Nat),
    validate key = .ok none →
    get_current_user validate (some key) = .ok none
    ∧ gpt_chat_endpoint validate (some key) prompt k = .ok ⟨pickResponse anonymousResponses k⟩
    ∧ gpt_chat_endpoint validate (some key) prompt k = gpt_chat_endpoint validate none prompt k := by
  intro validate key prompt k hv
  have h1 : get_current_user validate (some key) = .ok none := by
    simp [get_current_user, hv]
  refine ⟨h1, ?_, ?_⟩
  · simp [gpt_chat_endpoint, h1, gpt_chat]
  · simp [gpt_chat_endpoint, get_current_user, hv]

/-- Witness for C10 with a validator that knows no key. -/
theorem invalid_bearer_served_as_anonymous_witness :
    gpt_chat_endpoint (fun _ => .ok none) (some "MEMBER-XYZ") "hello" 0 =
      .ok ⟨pickResponse anonymousResponses 0⟩ :=
  (invalid_bearer_served_as_anonymous (fun _ => .ok none) "MEMBER-XYZ" "hello" 0 rfl).2.1
